import Mathlib

/-!
Verification of the protocol core of `python-prompt-toolkit` (commit0 fill-in).

Shallow embedding of:
  * `src/prompt_toolkit/contrib/telnet/protocol.py` (TelnetProtocolParser),
  * `src/prompt_toolkit/input/vt100_parser.py` (Vt100Parser),
  * `src/prompt_toolkit/formatted_text/ansi.py` (ANSI decoder and escaping),
  * `src/prompt_toolkit/layout/scrollable_pane.py` (ScrollablePane scrolling),
  * `src/prompt_toolkit/eventloop/async_generator.py` (generator bridge).

Machine bytes are `Nat` (values 0..255), Python `int`s are `Int` where sign
matters, Python strings are `String` / `List Char`.  Python's dynamic typing
matters for the telnet parser: `feed` iterates over a `bytes` object, which in
Python 3 yields `int` values, and sends those to the parser coroutine, while
the coroutine compares the received values against `bytes` constants such as
`IAC = int2byte(255)`.  In Python, `int == bytes` is always `False`.  We model
Python values reaching the coroutine with `PyVal` and Python `==` with `pyEq`.
-/

/-- A Python value circulating through the telnet parser: either an `int`
(what iterating a `bytes` object yields) or a `bytes` object. -/
inductive PyVal where
  | pint (n : Nat)
  | pbytes (bs : List Nat)
deriving DecidableEq, Repr

/-- Python `==` on these values: `int` and `bytes` never compare equal. -/
def pyEq : PyVal → PyVal → Bool
  | .pint a, .pint b => a == b
  | .pbytes a, .pbytes b => a == b
  | _, _ => false

/-- Modelled from the spec: `int2byte` is referenced by
`contrib/telnet/protocol.py` but its definition is not present under `src/`
(upstream defines it as `bytes((number,))` in the same file).  It builds a
one-byte `bytes` object. -/
def int2byte (n : Nat) : PyVal := .pbytes [n]

-- Constants of contrib/telnet/protocol.py (bytes objects).
def IAC : PyVal := int2byte 255
def DO : PyVal := int2byte 253
def DONT : PyVal := int2byte 254
def SB : PyVal := int2byte 250
def WILL : PyVal := int2byte 251
def WONT : PyVal := int2byte 252
def SE : PyVal := int2byte 240
def ECHO : PyVal := int2byte 1
def NAWS : PyVal := int2byte 31
def SUPPRESS_GO_AHEAD : PyVal := int2byte 3
def TTYPE : PyVal := int2byte 24
def IS : PyVal := int2byte 0

/-- Observable effects of `TelnetProtocolParser`: the three callbacks, the
value handed to `negotiate` (instrumented so that sub-negotiation dispatch is
visible), and a Python-level exception. -/
inductive TelnetEvent where
  | data (bs : List Nat)
  | size (rows cols : Nat)
  | ttype (s : List Nat)
  | negotiate (payload : List Nat)
  | pyError
deriving DecidableEq, Repr

/-- Python `bytes + x`: concatenation when `x` is `bytes`, `TypeError`
otherwise. -/
def pyBytesAdd (bs : List Nat) : PyVal → Option (List Nat)
  | .pbytes l => some (bs ++ l)
  | .pint _ => none

/-- Python `bytes([d])` where `d` came over the wire: works for an `int`
element, raises `TypeError` for a `bytes` element. -/
def pyBytesOfVal : PyVal → Option (List Nat)
  | .pint n => some [n]
  | .pbytes _ => none

/-- Python `bytes(subnegotiation)` on the accumulated list. -/
def pyBytesOfList : List PyVal → Option (List Nat)
  | [] => some []
  | .pint n :: rest => (pyBytesOfList rest).map (n :: ·)
  | .pbytes _ :: _ => none

/-- `TelnetProtocolParser.do_received` (protocol.py lines 61-69): accept ECHO
and SUPPRESS_GO_AHEAD with `WILL + option`, refuse others with
`WONT + data`.  Note the source sends the replies without a leading IAC. -/
def do_received (d : PyVal) : List TelnetEvent :=
  if pyEq d ECHO then [.data [251, 1]]
  else if pyEq d SUPPRESS_GO_AHEAD then [.data [251, 3]]
  else match pyBytesAdd [252] d with
    | some bs => [.data bs]
    | none => [.pyError]

/-- `TelnetProtocolParser.dont_received` (lines 71-74): echo `WONT + data`. -/
def dont_received (d : PyVal) : List TelnetEvent :=
  match pyBytesAdd [252] d with
  | some bs => [.data bs]
  | none => [.pyError]

/-- `TelnetProtocolParser.will_received` (lines 76-82): accept ECHO and
SUPPRESS_GO_AHEAD with `DO + data`, refuse others with `DONT + data`. -/
def will_received (d : PyVal) : List TelnetEvent :=
  if pyEq d ECHO || pyEq d SUPPRESS_GO_AHEAD then
    match pyBytesAdd [253] d with
    | some bs => [.data bs]
    | none => [.pyError]
  else
    match pyBytesAdd [254] d with
    | some bs => [.data bs]
    | none => [.pyError]

/-- `TelnetProtocolParser.wont_received` (lines 84-87): echo `DONT + data`. -/
def wont_received (d : PyVal) : List TelnetEvent :=
  match pyBytesAdd [254] d with
  | some bs => [.data bs]
  | none => [.pyError]

/-- `TelnetProtocolParser.naws` (lines 89-98): a 4-byte payload is unpacked
with `struct.unpack('!HH', data)` (two big-endian 16-bit values, columns then
rows) and the size callback is invoked with `(rows, columns)`; any other
length is only logged. -/
def naws (data : List Nat) : List TelnetEvent :=
  match data with
  | [c1, c2, r1, r2] => [.size (r1 * 256 + r2) (c1 * 256 + c2)]
  | _ => []

/-- `TelnetProtocolParser.ttype` (lines 100-109): payload starting with the IS
sub-code yields the terminal type (remaining bytes); otherwise only logged. -/
def ttype_received (data : List Nat) : List TelnetEvent :=
  match data with
  | 0 :: rest => [.ttype rest]
  | _ => []

/-- `TelnetProtocolParser.negotiate` (lines 111-121): dispatch on the leading
option byte (NAWS = 31, TTYPE = 24); unknown options are only logged. -/
def negotiate (data : List Nat) : List TelnetEvent :=
  .negotiate data ::
    (match data with
     | 31 :: rest => naws rest
     | 24 :: rest => ttype_received rest
     | _ => [])

/-- Control state of the `_parse_coroutine` generator (lines 123-160), i.e.
which `yield` the coroutine is suspended at. -/
inductive TelnetState where
  | top
  | afterIAC
  | afterCmd (cmd : PyVal)
  | inSB (buf : List PyVal)
  | inSBiac (buf : List PyVal)
deriving DecidableEq, Repr

/-- One resume of `_parse_coroutine` with a received value `d`, mirroring the
source branch for branch.  All comparisons go through Python `==` (`pyEq`). -/
def telnetStep (st : TelnetState) (d : PyVal) : TelnetState × List TelnetEvent :=
  match st with
  | .top =>
    if pyEq d IAC then (.afterIAC, [])
    else
      match pyBytesOfVal d with
      | some bs => (.top, [.data bs])
      | none => (.top, [.pyError])
  | .afterIAC =>
    if pyEq d IAC then (.top, [.data [255]])
    else if pyEq d DO || pyEq d DONT || pyEq d WILL || pyEq d WONT then
      (.afterCmd d, [])
    else if pyEq d SB then (.inSB [], [])
    else (.top, [])
  | .afterCmd cmd =>
    (.top,
      if pyEq cmd DO then do_received d
      else if pyEq cmd DONT then dont_received d
      else if pyEq cmd WILL then will_received d
      else wont_received d)
  | .inSB buf =>
    if pyEq d IAC then (.inSBiac buf, [])
    else (.inSB (buf ++ [d]), [])
  | .inSBiac buf =>
    if pyEq d SE then
      (.top,
        match pyBytesOfList buf with
        | some bs => negotiate bs
        | none => [.pyError])
    else (.inSB (buf ++ [IAC, d]), [])

/-- `TelnetProtocolParser.feed` (lines 162-167): iterate over the `bytes`
chunk, which yields plain `int` values, and send each one to the coroutine. -/
def telnetFeed (st : TelnetState) (data : List Nat) : TelnetState × List TelnetEvent :=
  match data with
  | [] => (st, [])
  | b :: rest =>
    let (st1, evs1) := telnetStep st (.pint b)
    let (st2, evs2) := telnetFeed st1 rest
    (st2, evs1 ++ evs2)

/-- Events produced by feeding a fresh parser one chunk. -/
def telnetRun (data : List Nat) : List TelnetEvent :=
  (telnetFeed .top data).2

/-- C1: feeding `IAC DO ECHO` to the parser.  The source's `feed` sends the
`int` values of the bytes, while the coroutine compares them against `bytes`
constants, so no command is ever recognized: all three bytes are delivered as
plain data and no reply is sent.  Moreover, even the handler `do_received`,
were it reached with a proper `bytes` argument, replies `WILL ECHO` without a
leading IAC (source line 65 sends `WILL + ECHO`). -/
theorem telnet_do_echo_actual_behavior :
    telnetRun [255, 253, 1] = [.data [255], .data [253], .data [1]]
      ∧ do_received (PyVal.pbytes [1]) = [.data [251, 1]] := by
  constructor <;> rfl

/-- C7: feeding a complete sub-negotiation `IAC SB NAWS IAC IAC IAC SE` hands
nothing to the negotiation handler: because `feed` sends `int` values that
never compare equal to the `bytes` constants, the parser delivers every raw
byte (including unescaped IAC bytes) on the data channel and `negotiate` is
never invoked. -/
theorem telnet_subnegotiation_actual_behavior :
    telnetRun [255, 250, 31, 255, 255, 255, 240] =
      [.data [255], .data [250], .data [31], .data [255], .data [255],
       .data [255], .data [240]] := by
  rfl

/-- C9: feeding `IAC SB NAWS 0 80 0 24 IAC SE` (columns=80, rows=24) invokes
no window-size callback: every byte is delivered as plain data instead,
because `feed` sends `int` values that the coroutine compares (always
unequal) against `bytes` constants. -/
theorem telnet_naws_actual_behavior :
    telnetRun [255, 250, 31, 0, 80, 0, 24, 255, 240] =
      [.data [255], .data [250], .data [31], .data [0], .data [80],
       .data [0], .data [24], .data [255], .data [240]] := by
  rfl

/-!
VT100 input parser (`src/prompt_toolkit/input/vt100_parser.py`).

The escape-sequence table `ANSI_SEQUENCES` lives in
`input/ansi_escape_sequences.py`, which is not present under `src/`; it is
modelled from the spec below.  The two regular expressions for
cursor-position-report and mouse-event sequences are in the source file
(lines 11-14) and are translated to character-list matchers.
-/

/-- Keys relevant to the modelled part of the escape-sequence table.  A plain
character key models the literal string key used by `_call_handler`. -/
inductive VKey where
  | escape
  | up
  | down
  | right
  | left
  | controlM
  | cprResponse
  | vt100MouseEvent
  | char (c : Char)
deriving DecidableEq, Repr

/-- Modelled from the spec: the well-known escape-sequence table
`ANSI_SEQUENCES` of `input/ansi_escape_sequences.py` (missing from `src/`),
restricted to the entries the claims exercise: bare ESC maps to the Escape
key, `ESC [ A/B/C/D` map to the cursor keys, and carriage return maps to
ControlM.  A table value may expand to several keys; we keep the list form. -/
def ANSI_SEQUENCES : List (List Char × List VKey) :=
  [(['\x1b'], [.escape]),
   (['\x1b', '[', 'A'], [.up]),
   (['\x1b', '[', 'B'], [.down]),
   (['\x1b', '[', 'C'], [.right]),
   (['\x1b', '[', 'D'], [.left]),
   (['\x0d'], [.controlM])]

/-- Is `a` an initial segment of `b` (Python `b.startswith(a)`)? -/
def isInitSeg : List Char → List Char → Bool
  | [], _ => true
  | _ :: _, [] => false
  | a :: as, b :: bs => a == b && isInitSeg as bs

/-- Split off the maximal run of decimal digits. -/
def takeDigits : List Char → List Char × List Char
  | [] => ([], [])
  | c :: rest =>
    if c.isDigit then
      let (ds, r) := takeDigits rest
      (c :: ds, r)
    else ([], c :: rest)

/-- The `_cpr_response_re` regex (line 11): `^ESC [ \d+ ; \d+ R $`. -/
def cprResponseMatch (l : List Char) : Bool :=
  match l with
  | '\x1b' :: '[' :: rest =>
    let (ds1, r1) := takeDigits rest
    (!ds1.isEmpty) &&
      (match r1 with
       | ';' :: r2 =>
         let (ds2, r3) := takeDigits r2
         (!ds2.isEmpty) && (r3 == ['R'])
       | _ => false)
  | _ => false

/-- The `_mouse_event_re` regex (line 12): `^ESC [ (<?[\d;]+[mM] | M...) $`. -/
def mouseEventMatch (l : List Char) : Bool :=
  match l with
  | '\x1b' :: '[' :: rest =>
    (let r1 := match rest with
       | '<' :: r => r
       | r => r
     let body := r1.takeWhile (fun c => c.isDigit || c == ';')
     let tail := r1.drop body.length
     (!body.isEmpty) && (tail == ['m'] || tail == ['M']))
    ||
    (match rest with
     | 'M' :: r => r.length == 3
     | _ => false)
  | _ => false

/-- The `_cpr_response_prefix_re` regex (line 13): `^ESC [ [\d;]* $`. -/
def cprResponsePfxMatch (l : List Char) : Bool :=
  match l with
  | '\x1b' :: '[' :: rest => rest.all (fun c => c.isDigit || c == ';')
  | _ => false

/-- The `_mouse_event_prefix_re` regex (line 14):
`^ESC [ (<?[\d;]* | M.{0,2}) $`. -/
def mouseEventPfxMatch (l : List Char) : Bool :=
  match l with
  | '\x1b' :: '[' :: rest =>
    (let r1 := match rest with
       | '<' :: r => r
       | r => r
     r1.all (fun c => c.isDigit || c == ';'))
    ||
    (match rest with
     | 'M' :: r => r.length ≤ 2
     | _ => false)
  | _ => false

/-- `Vt100Parser._get_match` (lines 62-77): exact table lookup first, then the
CPR and mouse regexes. -/
def getMatch (pfx : List Char) : Option (List VKey) :=
  match ANSI_SEQUENCES.lookup pfx with
  | some ks => some ks
  | none =>
    if cprResponseMatch pfx then some [.cprResponse]
    else if mouseEventMatch pfx then some [.vt100MouseEvent]
    else none

/-- `_IsPrefixOfLongerMatchCache.__missing__` (lines 26-32): the prefix
regexes, or some strictly longer table key extending this prefix.  (The
source memoizes this pure computation in a dict; memoization does not change
the value.) -/
def isPfxOfLongerMatch (pfx : List Char) : Bool :=
  if cprResponsePfxMatch pfx || mouseEventPfxMatch pfx then true
  else ANSI_SEQUENCES.any (fun kv => isInitSeg pfx kv.1 && kv.1 != pfx)

/-- A key event as delivered to `feed_key_callback`: the key together with
the `insert_text` payload. -/
structure VtKeyPress where
  key : VKey
  data : List Char
deriving DecidableEq, Repr

/-- `Vt100Parser._call_handler` (lines 130-139): a tuple value expands to one
`KeyPress` per key, all with the same `insert_text`; an empty `insert_text`
suppresses the callback. -/
def callHandler (ks : List VKey) (txt : List Char) : List VtKeyPress :=
  if txt.isEmpty then [] else ks.map (fun k => ⟨k, txt⟩)

/-- The body of `_input_parser_generator` (lines 79-128) between two `yield`
points, mirroring the source's `retry` loop.  Arguments: the current prefix
buffer (after appending the new character, if any) and the `flush` flag of
the first iteration.

The source's loop has three exits from a non-empty prefix:
  * an exact match: emit and clear the prefix (lines 110-112);
  * no match but a viable prefix while not flushing (lines 115-117): the
    source sets `retry = True` and re-evaluates the very same state with
    `flush` reset to `False`, i.e. it loops forever and the enclosing
    `send` call never returns; modelled as `none`;
  * otherwise (lines 118-123): emit the first buffered character as a
    literal and retry on the shorter prefix (with `flush` reset to `False`
    at the top of the loop).
An empty prefix reaches the next `yield` immediately. -/
def vtIter : List Char → Bool → Option (List VtKeyPress × List Char)
  | [], _ => some ([], [])
  | c :: rest, flush =>
    let pfx := c :: rest
    let isPfx := if flush then false else isPfxOfLongerMatch pfx
    match getMatch pfx with
    | some ks => some (callHandler ks pfx, [])
    | none =>
      if isPfx then none
      else
        match vtIter rest false with
        | none => none
        | some (evs, p2) => some (callHandler [.char c] [c] ++ evs, p2)

/-- Parser state between `send` calls: the buffered prefix, or `none` once a
`send` call has hung in the retry loop (no later call is ever processed). -/
def VtSt : Type := Option (List Char)

/-- Initial parser state (fresh coroutine, empty prefix). -/
def vtInitSt : VtSt := some []

/-- Sending one character (`feed` sends each character of its argument). -/
def vtSendChar (st : VtSt) (c : Char) : List VtKeyPress × VtSt :=
  match st with
  | none => ([], none)
  | some p =>
    match vtIter (p ++ [c]) false with
    | none => ([], none)
    | some (evs, p2) => (evs, some p2)

/-- Sending the `_Flush` object (`flush`, lines 150-162). -/
def vtSendFlush (st : VtSt) : List VtKeyPress × VtSt :=
  match st with
  | none => ([], none)
  | some p =>
    match vtIter p true with
    | none => ([], none)
    | some (evs, p2) => (evs, some p2)

/-- `Vt100Parser.feed` (lines 141-148): send the characters one by one,
collecting the emitted key events. -/
def vtFeed (st : VtSt) (data : List Char) : List VtKeyPress × VtSt :=
  match data with
  | [] => ([], st)
  | c :: rest =>
    ((vtSendChar st c).1 ++ (vtFeed (vtSendChar st c).2 rest).1,
     (vtFeed (vtSendChar st c).2 rest).2)

/-- Feeding a list of chunks one `feed` call at a time. -/
def vtFeedChunks (st : VtSt) (chunks : List (List Char)) : List VtKeyPress × VtSt :=
  match chunks with
  | [] => ([], st)
  | c :: rest =>
    ((vtFeed st c).1 ++ (vtFeedChunks (vtFeed st c).2 rest).1,
     (vtFeedChunks (vtFeed st c).2 rest).2)

/-- Key events of `feed(data)` on a fresh parser followed by `flush()`. -/
def vtRunFeedFlush (data : List Char) : List VtKeyPress :=
  let (e1, st1) := vtFeed vtInitSt data
  e1 ++ (vtSendFlush st1).1

/-- Key events of feeding the chunks one by one and then `flush()`. -/
def vtRunChunksFlush (chunks : List (List Char)) : List VtKeyPress :=
  let (e1, st1) := vtFeedChunks vtInitSt chunks
  e1 ++ (vtSendFlush st1).1

/-- C4: feeding the three characters `ESC [ A`.  The parser emits the Escape
key as soon as ESC arrives (an exact table match is emitted even when the
prefix extends to a longer match), and then `[` and `A` as literal keys:
three key events rather than a single Up event.  Feeding ESC followed by
`flush()` does yield exactly one Escape event. -/
theorem vt100_esc_bracket_a_actual_behavior :
    vtRunFeedFlush ['\x1b', '[', 'A'] =
      [⟨.escape, ['\x1b']⟩, ⟨.char '[', ['[']⟩, ⟨.char 'A', ['A']⟩]
      ∧ vtRunFeedFlush ['\x1b'] = [⟨.escape, ['\x1b']⟩] := by
  constructor <;> rfl

theorem vtFeed_append (st : VtSt) (a b : List Char) :
    vtFeed st (a ++ b) =
      ((vtFeed st a).1 ++ (vtFeed (vtFeed st a).2 b).1, (vtFeed (vtFeed st a).2 b).2) := by
  induction a generalizing st with
  | nil => simp [vtFeed]
  | cons c rest ih =>
    simp only [List.cons_append, vtFeed, List.append_eq]
    rw [ih]
    simp

/-- C5: chunking invariance.  Feeding the chunks of any partition one by one
and then flushing produces the same key events as feeding the concatenated
sequence in a single call and then flushing: `feed` processes its argument
one character at a time through the same state machine, so chunk boundaries
are invisible. -/
theorem vt100_chunking_invariance (chunks : List (List Char)) :
    vtRunChunksFlush chunks = vtRunFeedFlush chunks.flatten := by
  suffices h : ∀ st, vtFeedChunks st chunks = vtFeed st chunks.flatten by
    simp [vtRunChunksFlush, vtRunFeedFlush, h vtInitSt]
  intro st
  induction chunks generalizing st with
  | nil => simp [vtFeedChunks, vtFeed]
  | cons c rest ih =>
    simp only [List.flatten_cons, vtFeedChunks, vtFeed_append, ih]

/-!
ANSI escape decoder (`src/prompt_toolkit/formatted_text/ansi.py`).

`ANSI.__init__` creates the `_parse_corot` coroutine and sends every character
of the input string to it.  Two facts about the source shape the model:

  * `_select_graphic_rendition` (lines 81-123) calls `int(attr)` with no
    exception handling (a `ValueError` for a non-numeric attribute escapes to
    the caller), and its color branches reference the name
    `ANSI_COLOR_NAMES`, which is neither defined nor imported in the module,
    so reaching any color branch raises `NameError`.
  * the local `style` string of `_parse_corot` is initialised to `''` and
    never reassigned (the coroutine never calls `_create_style_string`), and
    the trailing `if text:` flush (lines 78-79) sits after the infinite
    `while True` loop and is never executed (`__init__` never closes the
    coroutine either).

Exceptions are modelled with `Except PyErr`.
-/

inductive PyErr where
  | nameError
  | valueError
deriving DecidableEq, Repr

/-- SGR attribute flags of the `ANSI` object (`__init__`, lines 27-35). -/
structure AnsiAttrs where
  color : Option String
  bgcolor : Option String
  bold : Bool
  underline : Bool
  strike : Bool
  italic : Bool
  blink : Bool
  reverse : Bool
  hidden : Bool
deriving DecidableEq, Repr

def ansiAttrsReset : AnsiAttrs :=
  ⟨none, none, false, false, false, false, false, false, false⟩

def digitsToNat (ds : List Char) : Nat :=
  ds.foldl (fun a c => a * 10 + (c.toNat - 48)) 0

/-- Python `int(string)`: surrounding whitespace is ignored, an optional sign
is followed by at least one digit; anything else raises `ValueError`. -/
def pyIntOfChars (s : List Char) : Except PyErr Int :=
  let t := ((s.dropWhile (· = ' ')).reverse.dropWhile (· = ' ')).reverse
  match t with
  | '-' :: ds =>
    if !ds.isEmpty && ds.all Char.isDigit then .ok (-(digitsToNat ds : Int))
    else .error .valueError
  | '+' :: ds =>
    if !ds.isEmpty && ds.all Char.isDigit then .ok (digitsToNat ds : Int)
    else .error .valueError
  | ds =>
    if !ds.isEmpty && ds.all Char.isDigit then .ok (digitsToNat ds : Int)
    else .error .valueError

/-- Python `str.split(';')`: always at least one piece, empty pieces kept. -/
def splitSemis : List Char → List (List Char)
  | [] => [[]]
  | ';' :: rest => [] :: splitSemis rest
  | c :: rest =>
    match splitSemis rest with
    | [] => [[c]]
    | p :: ps => (c :: p) :: ps

/-- One SGR code applied to the attribute flags (lines 91-123).  The four
color ranges reference the undefined module name `ANSI_COLOR_NAMES` and so
raise `NameError`; unknown codes fall through with no change. -/
def sgrApplyCode (a : AnsiAttrs) (n : Int) : Except PyErr AnsiAttrs :=
  if n = 0 then .ok ansiAttrsReset
  else if n = 1 then .ok {a with bold := true}
  else if n = 3 then .ok {a with italic := true}
  else if n = 4 then .ok {a with underline := true}
  else if n = 5 then .ok {a with blink := true}
  else if n = 7 then .ok {a with reverse := true}
  else if n = 8 then .ok {a with hidden := true}
  else if n = 9 then .ok {a with strike := true}
  else if 30 ≤ n ∧ n ≤ 37 then .error .nameError
  else if 40 ≤ n ∧ n ≤ 47 then .error .nameError
  else if 90 ≤ n ∧ n ≤ 97 then .error .nameError
  else if 100 ≤ n ∧ n ≤ 107 then .error .nameError
  else .ok a

def sgrFold (a : AnsiAttrs) : List (List Char) → Except PyErr AnsiAttrs
  | [] => .ok a
  | part :: rest =>
    if part.isEmpty then sgrFold a rest
    else
      match pyIntOfChars part with
      | .error e => .error e
      | .ok n =>
        match sgrApplyCode a n with
        | .error e => .error e
        | .ok a2 => sgrFold a2 rest

/-- `ANSI._select_graphic_rendition` (lines 81-123): strip a leading `[` and
trailing `m` when both are present, split on `;`, skip empty parts, parse
each part with `int` and apply it. -/
def selectGraphicRendition (a : AnsiAttrs) (attrs : List Char) : Except PyErr AnsiAttrs :=
  let attrs2 :=
    if attrs.head? = some '[' ∧ attrs.getLast? = some 'm' then
      (attrs.drop 1).dropLast
    else attrs
  sgrFold a (splitSemis attrs2)

/-- Python `str.isalpha` for a single character; the inputs the claims
exercise are ASCII, where this agrees with `Char.isAlpha`. -/
def pyIsAlpha (c : Char) : Bool := c.isAlpha

/-- State of the `_parse_corot` coroutine (lines 41-79) between characters:
the object's attribute flags, the fragments accumulated so far, and the
local variables `style` (never reassigned in the source), `text`,
`in_escape_sequence`/`escape_sequence` and `zero_width_escape_sequence`. -/
structure AnsiParseSt where
  attrs : AnsiAttrs
  fragments : List (String × String)
  style : String
  text : List Char
  inEscape : Bool
  escSeq : List Char
  zeroWidth : Bool
deriving DecidableEq, Repr

def ansiParseInit : AnsiParseSt := ⟨ansiAttrsReset, [], "", [], false, [], false⟩

/-- The pending text run flushed as a fragment with the current local
`style` (lines 67-69 and 72-74): only appended when non-empty. -/
def flushTextFrags (st : AnsiParseSt) : List (String × String) :=
  if st.text.isEmpty then st.fragments
  else st.fragments ++ [(st.style, String.mk st.text)]

/-- One character processed by `_parse_corot`, branch for branch. -/
def ansiStep (st : AnsiParseSt) (c : Char) : Except PyErr AnsiParseSt :=
  if st.inEscape then
    let e := st.escSeq ++ [c]
    if pyIsAlpha c || c = '~' then
      match selectGraphicRendition st.attrs e with
      | .error err => .error err
      | .ok a => .ok {st with inEscape := false, escSeq := [], attrs := a}
    else .ok {st with escSeq := e}
  else if st.zeroWidth then
    if c = '\x02' then
      .ok {st with zeroWidth := false,
                   fragments := st.fragments ++ [("[ZeroWidthEscape]", String.mk st.text)],
                   text := []}
    else .ok {st with text := st.text ++ [c]}
  else if c = '\x01' then
    .ok {st with fragments := flushTextFrags st, text := [], zeroWidth := true}
  else if c = '\x1b' then
    .ok {st with fragments := flushTextFrags st, text := [], inEscape := true}
  else .ok {st with text := st.text ++ [c]}

def ansiFold (st : AnsiParseSt) : List Char → Except PyErr AnsiParseSt
  | [] => .ok st
  | c :: rest =>
    match ansiStep st c with
    | .error e => .error e
    | .ok st2 => ansiFold st2 rest

/-- `ANSI.__init__` (lines 24-39): send every character of the value to the
coroutine; the resulting `_formatted_text` is the decoded fragment list.
The post-loop flush of lines 78-79 is unreachable and the coroutine is never
closed, so no trailing flush happens. -/
def ansiDecode (s : String) : Except PyErr (List (String × String)) :=
  (ansiFold ansiParseInit s.data).map (fun st => st.fragments)

/-- C2: decoding the string `"\x1b[31mred\x1b[0m plain"`.  Instead of
producing two styled fragments, the constructor raises `NameError` while
processing SGR code 31: the color branch of `_select_graphic_rendition`
references `ANSI_COLOR_NAMES`, a name that is neither defined nor imported
in the module.  (Independently, the local `style` is never recomputed from
the SGR flags and the end-of-input flush is unreachable, so even without the
color codes the fragments would be `[("", ...)]` runs only.) -/
theorem ansi_decode_red_plain_actual_behavior :
    ansiDecode "\x1b[31mred\x1b[0m plain" = .error .nameError := by
  rfl

/-- C8: parsers are claimed never to raise, but constructing the ANSI decoder
from `"\x1b[31m"` raises `NameError` (undefined `ANSI_COLOR_NAMES`), and
constructing it from `"\x1bZ"` raises `ValueError` (`int('Z')` with no
handler).  The VT100 key parser does process the same input and a flush
without raising (its state resolves every character). -/
theorem ansi_constructor_raises :
    ansiDecode "\x1b[31m" = .error .nameError
      ∧ ansiDecode "\x1bZ" = .error .valueError
      ∧ (vtSendFlush (vtFeed vtInitSt ['\x1b', '[', '3', '1', 'm']).2).2 = some [] := by
  refine ⟨rfl, rfl, rfl⟩

/-!
`ansi_escape` and the formatting entry points `ANSI.format` / `ANSI.__mod__`
(ansi.py lines 156-185).  Python `str.replace` with a one-character needle is
a character-wise map.  `str.format` / `%`-substitution themselves are
standard-library code not under `src/`; they are modelled as substitution of
positional arguments into the literal/hole decomposition of the template
string.
-/

/-- Python `s.replace(a, b)` for one-character `a` and `b`. -/
def pyReplaceChar (s : List Char) (a b : Char) : List Char :=
  s.map (fun c => if c = a then b else c)

/-- `ansi_escape` (lines 179-185): replace every ESC and every backspace with
`?`. -/
def ansi_escape (s : String) : String :=
  String.mk (pyReplaceChar (pyReplaceChar s.data '\x1b' '?') '\x08' '?')

/-- One piece of a format template: a literal run, or a positional hole. -/
inductive TmplPart where
  | lit (s : String)
  | hole (i : Nat)
deriving DecidableEq, Repr

/-- Modelled from the spec: Python `str.format` / `%`-substitution (standard
library, not under `src/`) on the literal/hole decomposition of the template,
with positional arguments. -/
def renderFmt (tmpl : List TmplPart) (args : List String) : List Char :=
  match tmpl with
  | [] => []
  | .lit s :: rest => s.data ++ renderFmt rest args
  | .hole i :: rest => (args.getD i "").data ++ renderFmt rest args

/-- `ANSI.format` (lines 156-163): escape every argument with `ansi_escape`,
then substitute into the template value. -/
def ansiFormat (tmpl : List TmplPart) (args : List String) : List Char :=
  renderFmt tmpl (args.map ansi_escape)

/-- `ANSI.__mod__` (lines 165-172): same escaping of every argument, then
`%`-substitution into the template value. -/
def ansiMod (tmpl : List TmplPart) (args : List String) : List Char :=
  renderFmt tmpl (args.map ansi_escape)

/-- The formatted string with each character tagged by provenance: `false`
for template literals, `true` for characters substituted from (escaped)
arguments. -/
def renderTagged (tmpl : List TmplPart) (args : List String) : List (Char × Bool) :=
  match tmpl with
  | [] => []
  | .lit s :: rest => s.data.map (fun c => (c, false)) ++ renderTagged rest args
  | .hole i :: rest =>
    (ansi_escape (args.getD i "")).data.map (fun c => (c, true)) ++ renderTagged rest args

/-- Run the decoder of `_parse_corot` over a provenance-tagged character list
and collect the provenance tag of every character that takes the
`char == '\x1b'` branch, i.e. every character that starts an escape
sequence.  Processing stops where the decoder raises, as in Python. -/
def escStartTags (st : AnsiParseSt) : List (Char × Bool) → List Bool
  | [] => []
  | (c, b) :: rest =>
    match ansiStep st c with
    | .error _ => []
    | .ok st2 =>
      if !st.inEscape && !st.zeroWidth && c = '\x1b' then b :: escStartTags st2 rest
      else escStartTags st2 rest

theorem pyReplaceChar_not_mem (s : List Char) (a b : Char) (hb : ¬ b = a) :
    a ∉ pyReplaceChar s a b := by
  intro h
  rcases List.mem_map.1 h with ⟨c, _, hec⟩
  by_cases h1 : c = a
  · rw [if_pos h1] at hec; exact hb hec
  · rw [if_neg h1] at hec; exact h1 hec

theorem pyReplaceChar_not_mem_of (s : List Char) (a b x : Char)
    (hx : x ∉ s) (hbx : ¬ b = x) : x ∉ pyReplaceChar s a b := by
  intro h
  rcases List.mem_map.1 h with ⟨c, hc, hec⟩
  by_cases h1 : c = a
  · rw [if_pos h1] at hec; exact hbx hec
  · rw [if_neg h1] at hec; exact hx (hec ▸ hc)

theorem ansi_escape_no_esc (s : String) : '\x1b' ∉ (ansi_escape s).data := by
  show '\x1b' ∉ pyReplaceChar (pyReplaceChar s.data '\x1b' '?') '\x08' '?'
  exact pyReplaceChar_not_mem_of _ _ _ _
    (pyReplaceChar_not_mem _ _ _ (by decide)) (by decide)

theorem ansi_escape_no_backspace (s : String) : '\x08' ∉ (ansi_escape s).data := by
  show '\x08' ∉ pyReplaceChar (pyReplaceChar s.data '\x1b' '?') '\x08' '?'
  exact pyReplaceChar_not_mem _ _ _ (by decide)

theorem mapEscape_getD (args : List String) (i : Nat) :
    (args.map ansi_escape).getD i "" = ansi_escape (args.getD i "") := by
  induction args generalizing i with
  | nil => cases i <;> rfl
  | cons a rest ih =>
    cases i with
    | zero => rfl
    | succ n => simpa [List.getD] using ih n

theorem renderTagged_fst (tmpl : List TmplPart) (args : List String) :
    (renderTagged tmpl args).map Prod.fst = ansiFormat tmpl args := by
  induction tmpl with
  | nil => rfl
  | cons t rest ih =>
    cases t with
    | lit s =>
      simp only [renderTagged, ansiFormat, renderFmt, List.map_append, List.map_map]
      rw [show Prod.fst ∘ (fun c => ((c, false) : Char × Bool)) = id from rfl]
      simp only [List.map_id]
      exact congrArg _ ih
    | hole i =>
      simp only [renderTagged, ansiFormat, renderFmt, List.map_append, List.map_map]
      rw [show Prod.fst ∘ (fun c => ((c, true) : Char × Bool)) = id from rfl]
      simp only [List.map_id]
      rw [mapEscape_getD]
      exact congrArg _ ih

theorem renderTagged_arg_chars_not_esc (tmpl : List TmplPart) (args : List String) :
    ∀ p ∈ renderTagged tmpl args, p.1 = '\x1b' → p.2 = false := by
  induction tmpl with
  | nil => intro p hp; simp [renderTagged] at hp
  | cons t rest ih =>
    cases t with
    | lit s =>
      intro p hp hesc
      rcases List.mem_append.1 hp with h | h
      · rcases List.mem_map.1 h with ⟨c, _, rfl⟩; rfl
      · exact ih p h hesc
    | hole i =>
      intro p hp hesc
      rcases List.mem_append.1 hp with h | h
      · rcases List.mem_map.1 h with ⟨c, hc, rfl⟩
        have hc2 : c = '\x1b' := hesc
        rw [hc2] at hc
        exact absurd hc (ansi_escape_no_esc _)
      · exact ih p h hesc

theorem escStartTags_all_false (l : List (Char × Bool)) (st : AnsiParseSt)
    (h : ∀ p ∈ l, p.1 = '\x1b' → p.2 = false) :
    ∀ b ∈ escStartTags st l, b = false := by
  induction l generalizing st with
  | nil => intro b hb; simp [escStartTags] at hb
  | cons p rest ih =>
    obtain ⟨c, tag⟩ := p
    intro b hb
    simp only [escStartTags] at hb
    split at hb
    · simp at hb
    · split at hb
      · rcases List.mem_cons.1 hb with rfl | hb2
        · have hcesc : c = '\x1b' := by
            rename_i hcond
            simp only [Bool.and_eq_true, decide_eq_true_eq] at hcond
            exact hcond.2
          exact h (c, b) (List.mem_cons_self _ _) hcesc
        · exact ih _ (fun q hq => h q (List.mem_cons_of_mem _ hq)) b hb2
      · exact ih _ (fun q hq => h q (List.mem_cons_of_mem _ hq)) b hb

/-- C10: `ANSI.format` and `ANSI.__mod__` escape every substituted argument
with `ansi_escape` before substitution; `ansi_escape` removes every ESC and
every backspace (replacing them with `?`); consequently, when the decoder
runs over the formatted string, every character that starts an escape
sequence originates from the template, never from an argument — untrusted
argument values cannot introduce their own ANSI control codes. -/
theorem ansi_format_escapes_arguments (tmpl : List TmplPart) (args : List String) (s : String) :
    ('\x1b' ∉ (ansi_escape s).data ∧ '\x08' ∉ (ansi_escape s).data)
    ∧ ansiFormat tmpl args = renderFmt tmpl (args.map ansi_escape)
    ∧ ansiMod tmpl args = renderFmt tmpl (args.map ansi_escape)
    ∧ (renderTagged tmpl args).map Prod.fst = ansiFormat tmpl args
    ∧ (escStartTags ansiParseInit (renderTagged tmpl args)).all (fun b => b == false) = true := by
  refine ⟨⟨ansi_escape_no_esc s, ansi_escape_no_backspace s⟩, rfl, rfl,
    renderTagged_fst tmpl args, ?_⟩
  refine List.all_eq_true.2 fun b hb => ?_
  have hfalse := escStartTags_all_false _ _ (renderTagged_arg_chars_not_esc tmpl args) b hb
  simpa using hfalse

/-- Witness for C10 at concrete inputs: a template with a dangling escape and
an argument that tries to smuggle in `"\x1b[31m"`; the escaped argument
contains no ESC and no escape-sequence start is attributed to the
argument. -/
theorem ansi_format_escapes_arguments_witness :
    (('\x1b' ∉ (ansi_escape "\x1b[31m").data ∧ '\x08' ∉ (ansi_escape "\x1b[31m").data)
    ∧ ansiFormat [.lit "a", .hole 0] ["\x1b[31m"] =
        renderFmt [.lit "a", .hole 0] (["\x1b[31m"].map ansi_escape)
    ∧ ansiMod [.lit "a", .hole 0] ["\x1b[31m"] =
        renderFmt [.lit "a", .hole 0] (["\x1b[31m"].map ansi_escape)
    ∧ (renderTagged [.lit "a", .hole 0] ["\x1b[31m"]).map Prod.fst =
        ansiFormat [.lit "a", .hole 0] ["\x1b[31m"]
    ∧ (escStartTags ansiParseInit
        (renderTagged [.lit "a", .hole 0] ["\x1b[31m"])).all (fun b => b == false) = true) :=
  ansi_format_escapes_arguments [.lit "a", .hole 0] ["\x1b[31m"] "\x1b[31m"

/-!
ScrollablePane (`src/prompt_toolkit/layout/scrollable_pane.py`).

Only `__init__` (vertical_scroll := 0) and one call of `_make_window_visible`
per `write_to_screen` pass mutate `vertical_scroll`; the buffer copying does
not touch it, so the scroll evolution is embedded on its own.  `Screen` and
`get_cursor_position` live in `layout/screen.py`, which is not under `src/`;
per the spec the temp screen exposes a height and a cursor position, which
the model takes as parameters.  All quantities are Python ints (`Int`).

`write_to_screen` (line 97) passes the pane's own `write_position` — its
rectangle on the real screen — as the `visible_win_write_pos` argument of
`_make_window_visible`, whose docstring expects the write position of the
nested window on the temp screen.
-/

structure WritePos where
  xpos : Int
  ypos : Int
  width : Int
  height : Int
deriving DecidableEq, Repr

structure ScrollOffs where
  top : Int
  bottom : Int
deriving DecidableEq, Repr

structure PPoint where
  x : Int
  y : Int
deriving DecidableEq, Repr

/-- The `ScrollablePane` fields that the scroll computation reads
(`__init__`, lines 46-58; a fresh pane has `vertical_scroll = 0` and default
scroll offsets top=1, bottom=1). -/
structure PaneSt where
  vertical_scroll : Int
  scroll_offsets : ScrollOffs
  keep_cursor_visible : Bool
  keep_focused_window_visible : Bool
deriving DecidableEq, Repr

def paneInit : PaneSt := ⟨0, ⟨1, 1⟩, true, true⟩

/-- `ScrollablePane._make_window_visible` (lines 150-185): returns the new
`vertical_scroll`.  With no cursor position the method returns without
touching the scroll.  The cursor rule clamps the scroll so the cursor row
lies inside the scroll offsets; the focused-window rule then clamps against
`visible_win_write_pos`. -/
def makeWindowVisible (p : PaneSt) (visible_height virtual_height : Int)
    (visible_win_write_pos : WritePos) (cursor : Option PPoint) : Int :=
  match cursor with
  | none => p.vertical_scroll
  | some cp =>
    let cursor_y := cp.y
    let s1 :=
      if p.keep_cursor_visible then
        if cursor_y < p.vertical_scroll + p.scroll_offsets.top then
          max 0 (cursor_y - p.scroll_offsets.top)
        else if cursor_y ≥ p.vertical_scroll + visible_height - p.scroll_offsets.bottom then
          min (virtual_height - visible_height)
            (cursor_y - visible_height + p.scroll_offsets.bottom + 1)
        else p.vertical_scroll
      else p.vertical_scroll
    if p.keep_focused_window_visible then
      let win_top := visible_win_write_pos.ypos
      let win_bottom := visible_win_write_pos.ypos + visible_win_write_pos.height
      if win_top < s1 then win_top
      else if win_bottom > s1 + visible_height then win_bottom - visible_height
      else s1
    else s1

/-- The `vertical_scroll` after one `write_to_screen` pass (lines 63-97):
`visible_height = min(write_position.height, temp_screen.height -
vertical_scroll)`, and `_make_window_visible` is called with the pane's own
`write_position`. -/
def writeToScreenScroll (p : PaneSt) (write_position : WritePos)
    (temp_screen_height : Int) (cursor : Option PPoint) : Int :=
  let visible_height := min write_position.height (temp_screen_height - p.vertical_scroll)
  makeWindowVisible p visible_height temp_screen_height write_position cursor

/-- C6: both claimed scroll properties fail after one render pass.
First: a fresh pane rendered at the screen origin with viewport height 5 over
content of height 20 and the cursor at row 10 ends with `vertical_scroll = 0`
(the focused-window rule compares the pane's own on-screen position, ypos 0,
against the scroll and resets it), while cursor visibility demands a scroll
of at least `10 - 5 + 1 + 1 = 7`.  Second: a fresh pane rendered at ypos 5
with viewport height 3 over content of height 4 ends with
`vertical_scroll = 5`, outside `[0, max 0 (4 - 3)] = [0, 1]`. -/
theorem scrollable_pane_scroll_bounds_violated :
    writeToScreenScroll paneInit ⟨0, 0, 10, 5⟩ 20 (some ⟨0, 10⟩) = 0
      ∧ ¬ ((10 : Int) - 5 + 1 + 1 ≤ writeToScreenScroll paneInit ⟨0, 0, 10, 5⟩ 20 (some ⟨0, 10⟩))
      ∧ writeToScreenScroll paneInit ⟨0, 5, 10, 3⟩ 4 (some ⟨0, 0⟩) = 5
      ∧ ¬ (writeToScreenScroll paneInit ⟨0, 5, 10, 3⟩ 4 (some ⟨0, 0⟩) ≤ max 0 ((4 : Int) - 3)) := by
  refine ⟨rfl, by decide, rfl, by decide⟩

/-!
Background generator bridge
(`src/prompt_toolkit/eventloop/async_generator.py`).

`generator_to_async_generator` creates the bounded queue and then `await`s
`run_in_executor_with_context(producer)` — it waits for the producer to run
to completion before the consuming loop starts, so no item is taken off the
queue while the producer runs; the whole composition is sequential.
(`run_in_executor_with_context` lives in `eventloop/utils.py`, which is not
under `src/`; modelled from the spec as running the function on a worker and
completing when it returns.)

Inside `producer`, `queue.put(item, block=False)` raises `Full` when the
queue holds `buffer_size` items; the `except Full:` handler calls
`time.sleep(0.01)`, but the module never imports `time`, so this raises
`NameError`, which aborts the loop and runs the `finally:` block; there
`queue.put(_Done(), block=True)` on a still-full queue blocks forever (no
consumer is draining), i.e. the coroutine never resumes: modelled as `none`.
-/

/-- An entry of the bounded queue: a produced item or the `_Done` sentinel. -/
inductive QItem (α : Type) where
  | item (a : α)
  | done
deriving DecidableEq, Repr

/-- The `finally:` block of `producer`: `queue.put(_Done(), block=True)`.
With no concurrent consumer this blocks forever on a full queue. -/
def finallyPut {α : Type} (q : List (QItem α)) (B : Nat) : Option (List (QItem α)) :=
  if q.length < B then some (q ++ [.done]) else none

/-- The `producer` body (lines 40-50) run to completion before the consumer
starts: put each item with `block=False`; on `Full`, `time.sleep` raises
`NameError` (the module does not import `time`) and control drops to the
`finally:` block. -/
def producerLoop {α : Type} : List α → List (QItem α) → Nat → Option (List (QItem α))
  | [], q, B => finallyPut q B
  | a :: rest, q, B =>
    if q.length < B then producerLoop rest (q ++ [.item a]) B
    else finallyPut q B

/-- The consuming loop (lines 54-58): take items off the queue until the
`_Done` sentinel, yielding each item. -/
def consumerDrain {α : Type} : List (QItem α) → List α
  | [] => []
  | .done :: _ => []
  | .item a :: rest => a :: consumerDrain rest

/-- `generator_to_async_generator` for a producer that yields `items` and a
queue of capacity `B`: `none` when the sequential producer phase never
completes (the async generator hangs and delivers nothing). -/
def generatorToAsyncModel {α : Type} (items : List α) (B : Nat) : Option (List α) :=
  (producerLoop items [] B).map consumerDrain

theorem producerLoop_hangs {α : Type} (pending : List α) (q : List (QItem α)) (B : Nat)
    (h : B ≤ pending.length + q.length) : producerLoop pending q B = none := by
  induction pending generalizing q with
  | nil =>
    simp only [List.length_nil, Nat.zero_add] at h
    simp [producerLoop, finallyPut, Nat.not_lt.2 h]
  | cons a rest ih =>
    simp only [producerLoop]
    by_cases hq : q.length < B
    · rw [if_pos hq]
      refine ih (q ++ [.item a]) ?_
      simp only [List.length_append, List.length_cons, List.length_singleton] at h ⊢
      omega
    · rw [if_neg hq]
      simp [finallyPut, hq]

/-- C3: whenever the producer yields at least as many items as the queue
capacity, the bridge delivers nothing at all: the producer is awaited to
completion before the consumer starts, the non-blocking put loop dies on the
missing `time` import once the queue is full, and the `finally:` put of the
sentinel blocks forever — instead of the claimed N items followed by one
termination signal. -/
theorem bridge_hangs_at_capacity (items : List Nat) (B : Nat) (h : B ≤ items.length) :
    generatorToAsyncModel items B = none := by
  unfold generatorToAsyncModel
  rw [producerLoop_hangs items [] B (by simpa using h)]
  rfl

/-- Witness for C3: three items with queue capacity three already hang. -/
theorem bridge_hangs_at_capacity_witness :
    generatorToAsyncModel [0, 1, 2] 3 = none :=
  bridge_hangs_at_capacity [0, 1, 2] 3 (by decide)
